import Mathlib

/-!
Verification development for the Vault-CRM analysis scripts.

The repository's engine behaviour under scrutiny lives in
`kimi-dev-system-debug.py` (class `SystemDebugAnalyzer`) and
`kimi-dev-phase2-analyzer.py` (class `Phase2Analyzer`).  This file gives a
shallow embedding of the data model and of every operation the claims
touch, translated from the Python source, together with theorems settling
the claims.

File access happens through `os.path.exists` / `open` on paths relative to
the analyzer's `repo_path`; we model the combination of `repo_path` and the
ambient file system as a partial map from relative path to file content
(`none` = the path does not exist).
-/

/-- A file source: relative path to file content; `none` models a path for
which `os.path.exists` is false. -/
def FileSystem : Type := String → Option String

/-- Model of Python's substring test `needle in hay` (`str.__contains__`),
checking every suffix of the haystack for the needle as a prefix. -/
def isSubChars (needle : List Char) : List Char → Bool
  | [] => needle.isEmpty
  | c :: rest => needle.isPrefixOf (c :: rest) || isSubChars needle rest

/-- Python `needle in hay` on strings. -/
def pyIn (needle hay : String) : Bool := isSubChars needle.data hay.data

/-- Model of Python `str.lower()` (the file contents involved are ASCII). -/
def pyLower (s : String) : String := String.mk (s.data.map Char.toLower)

/-- Auxiliary loop for `pyCount`: counts non-overlapping occurrences of the
non-empty needle `n :: ns`, scanning left to right and skipping the length
of the needle after each match, exactly as `str.count` does. -/
def countOcc (n : Char) (ns : List Char) : List Char → Nat
  | [] => 0
  | c :: rest =>
    if (n :: ns).isPrefixOf (c :: rest) then 1 + countOcc n ns (rest.drop ns.length)
    else countOcc n ns rest
termination_by l => l.length
decreasing_by
  · simp only [List.length_cons, List.length_drop]
    omega
  · simp only [List.length_cons]
    omega

/-- Model of Python `hay.count(needle)` (non-overlapping occurrences; an
empty needle counts `len(hay) + 1`, as in Python). -/
def pyCount (needle hay : String) : Nat :=
  match needle.data with
  | [] => hay.data.length + 1
  | n :: ns => countOcc n ns hay.data

/-- Character loop of `pyTitle`: the flag records whether the previous
character was alphabetic. -/
def pyTitleChars : Bool → List Char → List Char
  | _, [] => []
  | prevAlpha, c :: rest =>
    (if c.isAlpha then (if prevAlpha then c.toLower else c.toUpper) else c)
      :: pyTitleChars c.isAlpha rest

/-- Model of Python `str.title()` on the ASCII strings involved: a letter
following a non-letter is upper-cased, any other letter lower-cased. -/
def pyTitle (s : String) : String := String.mk (pyTitleChars false s.data)

/-- Model of Python `s.replace(c, d)` for single characters, as used by
`issue['type'].replace('_', ' ')`. -/
def pyReplaceChar (c d : Char) (s : String) : String :=
  String.mk (s.data.map (fun x => if x == c then d else x))

/-- Model of Python `s.endswith(suffix)`. -/
def pyEndsWith (s suffix : String) : Bool := suffix.data.isSuffixOf s.data

/-! ### A stable sort by a natural-number key

`sorted(xs, key=k)` in Python is a stable sort by the key.  Any two stable
sorts with respect to a total preorder on keys produce the same list, so we
model it by a stable insertion sort. -/

/-- Insert `a` into `l` in front of the first element whose key is not
smaller than `a`'s key. -/
def insertByKey {α : Type} (key : α → Nat) (a : α) : List α → List α
  | [] => [a]
  | b :: l => if key a ≤ key b then a :: b :: l else b :: insertByKey key a l

/-- Stable insertion sort by a key, modelling Python's `sorted(xs, key=k)`. -/
def sortOn {α : Type} (key : α → Nat) : List α → List α
  | [] => []
  | a :: l => insertByKey key a (sortOn key l)

theorem mem_insertByKey {α : Type} (key : α → Nat) (a x : α) (l : List α) :
    x ∈ insertByKey key a l ↔ x = a ∨ x ∈ l := by
  induction l with
  | nil => simp [insertByKey]
  | cons b t ih =>
    by_cases h : key a ≤ key b
    · simp [insertByKey, h]
    · simp [insertByKey, h, ih]
      tauto

theorem pairwise_insertByKey {α : Type} (key : α → Nat) (a : α) (l : List α)
    (hl : l.Pairwise (fun x y => key x ≤ key y)) :
    (insertByKey key a l).Pairwise (fun x y => key x ≤ key y) := by
  induction l with
  | nil => simp [insertByKey]
  | cons b t ih =>
    rcases List.pairwise_cons.1 hl with ⟨hb, ht⟩
    by_cases h : key a ≤ key b
    · simp only [insertByKey, if_pos h]
      refine List.pairwise_cons.2 ⟨?_, hl⟩
      intro y hy
      rcases List.mem_cons.1 hy with rfl | hyt
      · exact h
      · exact le_trans h (hb y hyt)
    · simp only [insertByKey, if_neg h]
      refine List.pairwise_cons.2 ⟨?_, ih ht⟩
      intro y hy
      rcases (mem_insertByKey key a y t).1 hy with rfl | hyt
      · omega
      · exact hb y hyt

theorem pairwise_sortOn {α : Type} (key : α → Nat) (l : List α) :
    (sortOn key l).Pairwise (fun x y => key x ≤ key y) := by
  induction l with
  | nil => simp [sortOn]
  | cons a t ih => exact pairwise_insertByKey key a _ ih

theorem filter_insertByKey_pos {α : Type} (key : α → Nat) (P : α → Bool) (r : Nat)
    (hP : ∀ x, P x = true → key x = r) (a : α) (l : List α) (ha : P a = true) :
    (insertByKey key a l).filter P = a :: l.filter P := by
  induction l with
  | nil => simp [insertByKey, ha]
  | cons b t ih =>
    by_cases h : key a ≤ key b
    · simp [insertByKey, h, List.filter_cons, ha]
    · have hb : P b = false := by
        cases hPb : P b
        · rfl
        · exact absurd (le_of_eq ((hP a ha).trans (hP b hPb).symm)) h
      simp [insertByKey, h, List.filter_cons, hb, ih]

theorem filter_insertByKey_neg {α : Type} (key : α → Nat) (P : α → Bool)
    (a : α) (l : List α) (ha : P a = false) :
    (insertByKey key a l).filter P = l.filter P := by
  induction l with
  | nil => simp [insertByKey, ha]
  | cons b t ih =>
    by_cases h : key a ≤ key b
    · simp [insertByKey, h, List.filter_cons, ha]
    · simp [insertByKey, h, List.filter_cons, ih]

theorem filter_sortOn {α : Type} (key : α → Nat) (P : α → Bool) (r : Nat)
    (hP : ∀ x, P x = true → key x = r) (l : List α) :
    (sortOn key l).filter P = l.filter P := by
  induction l with
  | nil => rfl
  | cons a t ih =>
    cases ha : P a
    · rw [sortOn, filter_insertByKey_neg key P a _ ha, ih]
      simp [List.filter_cons, ha]
    · rw [sortOn, filter_insertByKey_pos key P r hP a _ ha, ih]
      simp [List.filter_cons, ha]

theorem insertByKey_map {α : Type} (key : α → Nat) (m : α → α)
    (hm : ∀ x, key (m x) = key x) (a : α) (l : List α) :
    insertByKey key (m a) (l.map m) = (insertByKey key a l).map m := by
  induction l with
  | nil => simp [insertByKey]
  | cons b t ih =>
    by_cases h : key a ≤ key b
    · simp [insertByKey, hm, h]
    · simp [insertByKey, hm, h, ih]

theorem sortOn_map {α : Type} (key : α → Nat) (m : α → α)
    (hm : ∀ x, key (m x) = key x) (l : List α) :
    sortOn key (l.map m) = (sortOn key l).map m := by
  induction l with
  | nil => rfl
  | cons a t ih => simp [sortOn, ih, insertByKey_map key m hm a]

/-! ### Model of `kimi-dev-system-debug.py` (`SystemDebugAnalyzer`)

Issue dictionaries produced by the `analyze_*` methods all carry the same
seven keys; we model them as a structure.  They carry no severity and no
rule id. -/

structure Issue where
  type : String
  category : String
  title : String
  file : String
  description : String
  impact : String
  fix : String
deriving DecidableEq

/-- A prioritized fix, as built in `generate_systematic_fixes`:
`{"priority": i, "issue": issue, "implementation_steps": ...}`. -/
structure FixEntry where
  priority : Nat
  issue : Issue
  implementation_steps : List String
deriving DecidableEq

/-- `analyze_database_schema_errors` (lines 19-40). -/
def analyze_database_schema_errors (fs : FileSystem) : List Issue :=
  match fs "server/storage.ts" with
  | some content =>
    if pyIn "monthly_target" content then
      [{ type := "critical", category := "database_schema",
         title := "Missing monthly_target column in database",
         file := "server/storage.ts",
         description := "Code references monthly_target column that doesn\x27t exist in database",
         impact := "API endpoints failing with 500 errors",
         fix := "Remove monthly_target references or add column to schema" }]
    else []
  | none => []

/-- The three performance pages checked by `analyze_date_inconsistencies`. -/
def performance_files : List String :=
  ["client/src/pages/performance.tsx",
   "client/src/pages/performance-simple.tsx",
   "client/src/pages/performance-direct.tsx"]

/-- Body of the per-file loop of `analyze_date_inconsistencies`. -/
def dateCheck (fs : FileSystem) (file_path : String) : List Issue :=
  match fs file_path with
  | some content =>
    if pyIn "month=10" content || pyIn "October" content then
      [{ type := "data_accuracy", category := "date_consistency",
         title := "Hardcoded October dates in " ++ file_path,
         file := file_path,
         description := "Sales data showing October 2025 instead of current June",
         impact := "Incorrect date display in performance analytics",
         fix := "Update to dynamic current month or correct June data" }]
    else []
  | none => []

/-- `analyze_date_inconsistencies` (lines 42-70). -/
def analyze_date_inconsistencies (fs : FileSystem) : List Issue :=
  performance_files.flatMap (dateCheck fs)

/-- `analyze_client_deletion_errors` (lines 72-96). -/
def analyze_client_deletion_errors (fs : FileSystem) : List Issue :=
  match fs "server/routes.ts" with
  | some content =>
    if pyIn "DELETE" content && pyIn "/api/clients" content then
      if !(pyIn "foreign key" (pyLower content)) then
        [{ type := "functionality", category := "client_management",
           title := "Client deletion missing foreign key handling",
           file := "server/routes.ts",
           description := "Client deletion may fail due to foreign key constraints",
           impact := "Users cannot delete clients with existing sales",
           fix := "Add proper foreign key constraint error handling" }]
      else []
    else []
  | none => []

/-- `analyze_ui_display_inconsistencies` (lines 98-123).  The subtraction
`content.count("import ") - content.count("import { lazy")` is on Python
ints, so it is modelled on `Int`. -/
def analyze_ui_display_inconsistencies (fs : FileSystem) : List Issue :=
  match fs "client/src/App.tsx" with
  | some content =>
    let lazy_count := pyCount "lazy(" content
    let direct_import_count : Int :=
      (pyCount "import " content : Int) - (pyCount "import \x7b lazy" content : Int)
    if lazy_count > 0 ∧ direct_import_count > 0 then
      [{ type := "ui_consistency", category := "component_loading",
         title := "Mixed lazy and direct component loading",
         file := "client/src/App.tsx",
         description := "Different loading strategies causing UI inconsistencies",
         impact := "Performance dashboard looks different in preview vs full view",
         fix := "Standardize component loading strategy" }]
    else []
  | none => []

/-- The four files checked by `analyze_commission_system_removal`. -/
def files_to_check : List String :=
  ["server/storage.ts", "server/routes.ts", "shared/schema.ts",
   "client/src/pages/performance-direct.tsx"]

/-- Body of the per-file loop of `analyze_commission_system_removal`. -/
def commissionCheck (fs : FileSystem) (file_path : String) : List Issue :=
  match fs file_path with
  | some content =>
    if pyIn "commission" (pyLower content) then
      [{ type := "feature_removal", category := "commission_system",
         title := "Commission references in " ++ file_path,
         file := file_path,
         description := "Commission system needs to be removed as requested",
         impact := "Unnecessary commission data displayed",
         fix := "Remove commission calculations and UI elements" }]
    else []
  | none => []

/-- `analyze_commission_system_removal` (lines 125-154). -/
def analyze_commission_system_removal (fs : FileSystem) : List Issue :=
  files_to_check.flatMap (commissionCheck fs)

/-- The `all_issues` list assembled at the top of
`generate_systematic_fixes` (lines 158-163). -/
def all_issues (fs : FileSystem) : List Issue :=
  analyze_database_schema_errors fs ++ analyze_date_inconsistencies fs ++
    analyze_client_deletion_errors fs ++ analyze_ui_display_inconsistencies fs ++
    analyze_commission_system_removal fs

/-- `priority_order` (line 166). -/
def priority_order : List String :=
  ["critical", "functionality", "ui_consistency", "data_accuracy", "feature_removal"]

/-- The sort key `priority_order.index(x["type"])` of line 168, for types
that occur in `priority_order` (`list.index` raises otherwise; that case is
handled in `prioritizeFixes`). -/
def issueKey (x : Issue) : Nat := priority_order.indexOf x.type

/-- `generate_fix_steps` (lines 180-215): a chain of equality tests on the
issue's category with a single fallback. -/
def generate_fix_steps (issue : Issue) : List String :=
  if issue.category == "database_schema" then
    ["Remove monthly_target column references from storage.ts",
     "Update API queries to exclude monthly_target",
     "Test stores and sales-persons endpoints"]
  else if issue.category == "date_consistency" then
    ["Update hardcoded October dates to June 2025",
     "Change month=10 to month=6 in API calls",
     "Update display text from October to June"]
  else if issue.category == "client_management" then
    ["Add foreign key constraint error handling",
     "Implement cascade delete or proper error messaging",
     "Test client deletion with existing sales"]
  else if issue.category == "component_loading" then
    ["Convert all lazy components to direct imports",
     "Remove React.lazy() wrappers causing suspension",
     "Test performance dashboard consistency"]
  else if issue.category == "commission_system" then
    ["Remove commission calculations from backend",
     "Remove commission UI elements from frontend",
     "Update performance analytics to exclude commission data"]
  else
    ["Manual analysis required"]

/-- The category-to-steps table that `generate_fix_steps` realizes as an
`if`/`elif` chain. -/
def fix_step_table : List (String × List String) :=
  [("database_schema",
    ["Remove monthly_target column references from storage.ts",
     "Update API queries to exclude monthly_target",
     "Test stores and sales-persons endpoints"]),
   ("date_consistency",
    ["Update hardcoded October dates to June 2025",
     "Change month=10 to month=6 in API calls",
     "Update display text from October to June"]),
   ("client_management",
    ["Add foreign key constraint error handling",
     "Implement cascade delete or proper error messaging",
     "Test client deletion with existing sales"]),
   ("component_loading",
    ["Convert all lazy components to direct imports",
     "Remove React.lazy() wrappers causing suspension",
     "Test performance dashboard consistency"]),
   ("commission_system",
    ["Remove commission calculations from backend",
     "Remove commission UI elements from frontend",
     "Update performance analytics to exclude commission data"])]

/-- One entry of the `fixes` list of lines 170-176. -/
def mkFix (p : Nat × Issue) : FixEntry :=
  { priority := p.1, issue := p.2, implementation_steps := generate_fix_steps p.2 }

/-- Lines 165-178 of `generate_systematic_fixes`: sort `all_issues` by
`priority_order.index(x["type"])` and enumerate from 1.  CPython's `sorted`
computes the key of every element before comparing, and `list.index`
raises `ValueError` on a type absent from `priority_order`, aborting the
call; we model an aborted call as `none`. -/
def prioritizeFixes (issues : List Issue) : Option (List FixEntry) :=
  if issues.all (fun x => priority_order.contains x.type) then
    some ((List.enumFrom 1 (sortOn issueKey issues)).map mkFix)
  else none

/-- Rendering of one step line, `report += f"- {step}\n"` (lines 240-241). -/
def renderStep (step : String) : String := "- " ++ step ++ "\n"

/-- Rendering of one fix section of the report (lines 229-243). -/
def renderFixEntry (fx : FixEntry) : String :=
  "\n### Priority " ++ toString fx.priority ++ ": " ++ fx.issue.title ++
    "\n- **Type**: " ++ pyTitle (pyReplaceChar '_' ' ' fx.issue.type) ++
    "\n- **File**: " ++ fx.issue.file ++
    "\n- **Impact**: " ++ fx.issue.impact ++
    "\n- **Description**: " ++ fx.issue.description ++
    "\n\n**Implementation Steps:**\n" ++
    String.join (fx.implementation_steps.map renderStep) ++ "\n"

/-- The fixed closing section of the report (lines 245-259); the odd
characters reproduce the bytes of the source literal. -/
def reportFooter : String :=
  "\n## Recommended Implementation Order:\n1. Fix critical database schema errors first (stores/sales-persons API)\n2. Fix client deletion functionality\n3. Standardize component loading to fix UI inconsistencies\n4. Update date consistency (October ‚Üí June)\n5. Remove commission system as requested\n\n## Expected Outcomes:\n- ‚úì Stores and sales persons data restored in Sales tab\n- ‚úì Client deletion working properly\n- ‚úì Performance dashboard consistent between preview and full view\n- ‚úì Sales data showing correct June 2025 dates\n- ‚úì Commission data removed as requested\n"

/-- The report text of `create_implementation_report` (lines 221-261) as a
function of the generation timestamp
(`datetime.now().strftime('%Y-%m-%d %H:%M:%S')`, an effect we take as an
input) and the fixes list. -/
def renderReport (generated_at : String) (fixes : List FixEntry) : String :=
  "\n# Kimi-Dev System Debug Report\nGenerated: " ++ generated_at ++
    "\n\n## Issues Identified: " ++ toString fixes.length ++ "\n\n" ++
    String.join (fixes.map renderFixEntry) ++ reportFooter

/-- The mutable state of a `SystemDebugAnalyzer` object: its file source
(`repo_path` plus the ambient file system) and the `self.issues` /
`self.fixes` lists set up in `__init__` (lines 14-17) — which, notably, no
method ever reads or writes afterwards. -/
structure SystemDebugAnalyzer where
  repo : FileSystem
  issues : List Issue
  fixes : List FixEntry

/-- Method `generate_systematic_fixes` (lines 156-178): returns the
possibly-aborted fixes list and the object state after the call. -/
def SystemDebugAnalyzer.generate_systematic_fixes (a : SystemDebugAnalyzer) :
    SystemDebugAnalyzer × Option (List FixEntry) :=
  (a, prioritizeFixes (all_issues a.repo))

/-- Method `create_implementation_report` (lines 217-261): builds the fixes
via `generate_systematic_fixes` and renders the report; `none` propagates
an aborted fix generation (an uncaught `ValueError`). -/
def SystemDebugAnalyzer.create_implementation_report (a : SystemDebugAnalyzer)
    (generated_at : String) : SystemDebugAnalyzer × Option String :=
  let p := a.generate_systematic_fixes
  (p.1, p.2.map (renderReport generated_at))

/-- `main` (lines 263-274), under a name Lean permits: constructs a fresh analyzer, produces the
report, writes and prints it (external effects), and the process ends with
exit code 0; an uncaught exception would end it without a report and with a
non-zero code, modelled as `none`. -/
def mainEntry (fs : FileSystem) (generated_at : String) : Option (String × Nat) :=
  let analyzer : SystemDebugAnalyzer := ⟨fs, [], []⟩
  ((analyzer.create_implementation_report generated_at).2).map (fun r => (r, 0))

/-! ### Model of `kimi-dev-phase2-analyzer.py` (`Phase2Analyzer`)

Only the parts the claims cite are needed: `analyze_bundle_size_optimization`
(lines 88-140) and the severity bucketing of `generate_phase2_improvements`
(lines 249-271). -/

/-- Issue dictionaries of the phase-2 analyzer. -/
structure P2Issue where
  file : String
  issue : String
  severity : String
  description : String
  fix : String
deriving DecidableEq

/-- The `.endswith(('.tsx', '.ts'))` test of line 99, applied to the
file's path. -/
def isCodeFile (p : String) : Bool := pyEndsWith p ".tsx" || pyEndsWith p ".ts"

/-- The `large_components` list of lines 95-109.  The walk over
`client/src` (an external collaborator) is an input: pairs of a relative
path and the result of `Path.stat().st_size`, where `none` models `stat`
raising — the bare `except: pass` then skips the file silently. -/
def large_components (walk : List (String × Option Nat)) : List (String × Nat) :=
  walk.filterMap fun e =>
    if isCodeFile e.1 then
      match e.2 with
      | some file_size => if file_size > 15000 then some (e.1, file_size) else none
      | none => none
    else none

/-- Rendering of `size_kb = round(file_size / 1024, 2)` to hundredths of a
KB.  The source goes through a Python float; no claim depends on this text,
which only feeds the description string below. -/
def fmtKB (file_size : Nat) : String :=
  let h := (file_size * 100 + 512) / 1024
  if h % 100 == 0 then toString (h / 100) ++ ".0"
  else if h % 10 == 0 then toString (h / 100) ++ "." ++ toString (h % 100 / 10)
  else toString (h / 100) ++ "." ++
    (if h % 100 < 10 then "0" ++ toString (h % 100) else toString (h % 100))

/-- Description string of lines 112-115 (first three large components). -/
def mkLargeDescription (cs : List (String × Nat)) : String :=
  "Large components increase bundle size: " ++
    String.intercalate ", " ((cs.take 3).map (fun c => c.1 ++ " (" ++ fmtKB c.2 ++ "KB)"))

/-- `analyze_bundle_size_optimization` (lines 88-140): one aggregated issue
when any large component was found (lines 111-123), plus the `App.tsx`
code-splitting check (lines 125-138). -/
def analyze_bundle_size_optimization (walk : List (String × Option Nat))
    (fs : FileSystem) : List P2Issue :=
  (if large_components walk ≠ [] then
    [{ file := "Multiple large components",
       issue := "Large component files detected",
       severity := "MEDIUM",
       description := mkLargeDescription (large_components walk),
       fix := "Implement code splitting and lazy loading for large components" }]
   else []) ++
  (match fs "client/src/App.tsx" with
   | some content =>
     if !(pyIn "React.lazy" content) && !(pyIn "lazy(" content) then
       [{ file := "client/src/App.tsx",
          issue := "No code splitting implemented",
          severity := "MEDIUM",
          description := "All components loaded synchronously, increasing initial bundle size",
          fix := "Implement React.lazy for non-critical route components" }]
     else []
   | none => [])

/-- Result dictionary of `generate_phase2_improvements` (lines 266-271). -/
structure Phase2Result where
  high_priority : List P2Issue
  medium_priority : List P2Issue
  low_priority : List P2Issue
  total_issues : Nat
deriving DecidableEq

/-- The severity bucketing of `generate_phase2_improvements`
(lines 261-271), applied to the assembled `all_issues` list. -/
def categorize_by_severity (phase2_issues : List P2Issue) : Phase2Result :=
  { high_priority := phase2_issues.filter (fun i => i.severity == "HIGH"),
    medium_priority := phase2_issues.filter (fun i => i.severity == "MEDIUM"),
    low_priority := phase2_issues.filter (fun i => i.severity == "LOW"),
    total_issues := phase2_issues.length }

/-! ### Concrete inputs used by witnesses and counterexamples -/

/-- A file source with no readable files: what every `os.path.exists` check
sees when the root path is missing or unreadable. -/
def fsEmpty : FileSystem := fun _ => none

/-- A file source where exactly `server/storage.ts` and `server/routes.ts`
exist, both containing the word `commission`. -/
def fsCommissionPair : FileSystem := fun p =>
  if p == "server/storage.ts" || p == "server/routes.ts" then some "has commission here" else none

/-- A file source where every path exists with content `commission`. -/
def fsAllCommission : FileSystem := fun _ => some "commission"

def issueA : Issue :=
  { type := "critical", category := "database_schema", title := "tA",
    file := "a.ts", description := "dA", impact := "iA", fix := "fA" }

def issueB : Issue :=
  { type := "feature_removal", category := "commission_system", title := "tB",
    file := "b.ts", description := "dB", impact := "iB", fix := "fB" }

def issueC : Issue :=
  { type := "critical", category := "database_schema", title := "tC",
    file := "c.ts", description := "dC", impact := "iC", fix := "fC" }

/-- An issue whose type is outside `priority_order`. -/
def issueBadType : Issue :=
  { type := "unknown_type", category := "weird", title := "t",
    file := "f", description := "d", impact := "i", fix := "x" }

/-- A phase-2 issue whose severity is outside HIGH/MEDIUM/LOW. -/
def p2Weird : P2Issue :=
  { file := "f", issue := "i", severity := "SEVERE", description := "d", fix := "x" }

def anaClean : SystemDebugAnalyzer := ⟨fsCommissionPair, [], []⟩

/-- Same file source as `anaClean` but with junk carried in the mutable
`issues` / `fixes` fields. -/
def anaDirty : SystemDebugAnalyzer := ⟨fsCommissionPair, [issueA], [⟨9, issueA, ["s"]⟩]⟩

def issuesW1 : List Issue := [issueB, issueA]

def fixesW1 : List FixEntry := (List.enumFrom 1 (sortOn issueKey issuesW1)).map mkFix

def issuesW2 : List Issue := [issueA, issueB]

def fixesW2 : List FixEntry := (List.enumFrom 1 (sortOn issueKey issuesW2)).map mkFix

def issuesW3 : List Issue := [issueB, issueA, issueC]

/-- A field rewrite that keeps the type but changes title and file. -/
def typePreservingRename : Issue → Issue := fun x => { x with title := "T", file := "zzz" }

/-- Python-style lexicographic comparison of strings by code point,
written so it evaluates inside the kernel. -/
def listStrLt : List Char → List Char → Bool
  | [], [] => false
  | [], _ :: _ => true
  | _ :: _, [] => false
  | a :: as, b :: bs => if a < b then true else if b < a then false else listStrLt as bs

/-- Python `a < b` on strings. -/
def pyStrLt (a b : String) : Bool := listStrLt a.data b.data

/-! ### Claim C1 -/

/-- The tie-break part of claim C1 as a predicate on a produced fixes list:
with equal category ranks (the issues carry no severity, so severity ranks
are vacuously equal too) the file path must break the tie. -/
def fileTieClaim (fixes : List FixEntry) : Prop :=
  ∀ A ∈ fixes, ∀ B ∈ fixes,
    issueKey A.issue = issueKey B.issue → pyStrLt A.issue.file B.issue.file = true →
      A.priority < B.priority

/-- C1: the claim as stated is false.  Running the analyzer over a file
source where `server/storage.ts` and `server/routes.ts` both contain
`commission` produces a report with two findings of equal category rank in
emission order, and the finding with the lexicographically smaller file
path (`server/routes.ts`) gets the larger priority index: the sort key is
only `priority_order.index(x["type"])`, with no file-path tie-break. -/
theorem C1_counterexample :
    (prioritizeFixes (all_issues fsCommissionPair)).isSome = true ∧
    ¬ fileTieClaim ((prioritizeFixes (all_issues fsCommissionPair)).getD []) := by
  constructor
  · rfl
  · unfold fileTieClaim
    decide

/-- C1 (amended): in every produced report the findings are ordered with
category rank non-decreasing (so a finding with a strictly lower category
rank precedes one with a higher rank), and findings of equal category rank
keep the order in which the analyzers emitted them; no other field takes
part in the ordering. -/
theorem C1_sorted_by_category_rank (issues : List Issue) (fixes : List FixEntry)
    (r : Nat) (h : prioritizeFixes issues = some fixes) :
    (fixes.map FixEntry.issue).Pairwise (fun A B => issueKey A ≤ issueKey B) ∧
    (fixes.map FixEntry.issue).filter (fun x => issueKey x == r) =
      issues.filter (fun x => issueKey x == r) := by
  have hfix : fixes = (List.enumFrom 1 (sortOn issueKey issues)).map mkFix := by
    unfold prioritizeFixes at h
    split at h
    · exact (Option.some.inj h).symm
    · cases h
  have hmap : fixes.map FixEntry.issue = sortOn issueKey issues := by
    subst hfix
    rw [List.map_map]
    have h1 : (FixEntry.issue ∘ mkFix) = Prod.snd := rfl
    rw [h1, List.enumFrom_map_snd]
  constructor
  · rw [hmap]
    exact pairwise_sortOn issueKey issues
  · rw [hmap]
    exact filter_sortOn issueKey (fun x => issueKey x == r) r
      (fun x hx => by simpa using hx) issues

theorem C1_sorted_by_category_rank_witness :
    (fixesW1.map FixEntry.issue).Pairwise (fun A B => issueKey A ≤ issueKey B) ∧
    (fixesW1.map FixEntry.issue).filter (fun x => issueKey x == 0) =
      issuesW1.filter (fun x => issueKey x == 0) :=
  C1_sorted_by_category_rank issuesW1 fixesW1 0 rfl

/-! ### Claim C2 -/

/-- C2: the claim as stated is false.  With two files under `client/src`,
one whose `stat` raises and one large one, the scan returns only the
large-component finding: it does not abort, but no engine-level finding
(category "engine", severity LOW) is recorded for the failing pair — there
is no LOW-severity finding at all. -/
theorem C2_counterexample :
    (analyze_bundle_size_optimization [("a.tsx", none), ("b.tsx", some 20000)] fsEmpty).length = 1 ∧
    (analyze_bundle_size_optimization [("a.tsx", none), ("b.tsx", some 20000)] fsEmpty).filter
        (fun i => i.severity == "LOW") = [] ∧
    (analyze_bundle_size_optimization [("a.tsx", none), ("b.tsx", some 20000)] fsEmpty).map
        P2Issue.issue = ["Large component files detected"] := by
  decide

theorem large_components_skip (pre post : List (String × Option Nat)) (p : String) :
    large_components (pre ++ (p, none) :: post) = large_components (pre ++ post) := by
  unfold large_components
  rw [List.filterMap_append, List.filterMap_append, List.filterMap_cons]
  by_cases hc : isCodeFile p
  · simp [hc]
  · simp [hc]

/-- C2 (amended): if `stat` raises on some file, the scan does not abort
and still returns the findings of the scan over the remaining files — but
the failure is swallowed silently (`except: pass`): no engine-level finding
is recorded for the failing (rule, file) pair. -/
theorem C2_failure_silently_skipped (pre post : List (String × Option Nat))
    (p : String) (fs : FileSystem) :
    analyze_bundle_size_optimization (pre ++ (p, none) :: post) fs =
      analyze_bundle_size_optimization (pre ++ post) fs := by
  unfold analyze_bundle_size_optimization
  rw [large_components_skip]

/-! ### Claim C3 -/

/-- C3: the claim as stated is false.  A finding with a type outside the
fixed table makes `generate_systematic_fixes` raise (`list.index` →
`ValueError`), so the run aborts with no report instead of normalizing; and
a phase-2 finding with severity `SEVERE` lands in none of the three
severity buckets (in particular not in MEDIUM) while still being counted in
`total_issues`. -/
theorem C3_counterexample :
    prioritizeFixes [issueBadType] = none ∧
    (categorize_by_severity [p2Weird]).high_priority = [] ∧
    (categorize_by_severity [p2Weird]).medium_priority = [] ∧
    (categorize_by_severity [p2Weird]).low_priority = [] ∧
    (categorize_by_severity [p2Weird]).total_issues = 1 := by
  decide

/-- C3 (amended): no normalization to MEDIUM exists.  A finding whose type
is outside the fixed enumeration aborts fix generation (no report), and a
phase-2 finding whose severity is outside HIGH/MEDIUM/LOW is dropped from
every severity bucket while still counted in the total. -/
theorem C3_no_normalization :
    (∀ (issues : List Issue) (x : Issue), x ∈ issues →
        priority_order.contains x.type = false → prioritizeFixes issues = none) ∧
    (∀ (l : List P2Issue) (x : P2Issue),
        (x.severity == "HIGH") = false → (x.severity == "MEDIUM") = false →
        (x.severity == "LOW") = false →
        x ∉ (categorize_by_severity l).high_priority ∧
        x ∉ (categorize_by_severity l).medium_priority ∧
        x ∉ (categorize_by_severity l).low_priority ∧
        (categorize_by_severity l).total_issues = l.length) := by
  constructor
  · intro issues x hx hfalse
    have hall : issues.all (fun y => priority_order.contains y.type) = false := by
      cases h : issues.all (fun y => priority_order.contains y.type)
      · rfl
      · have := List.all_eq_true.1 h x hx
        rw [hfalse] at this
        cases this
    unfold prioritizeFixes
    rw [hall]
    rfl
  · intro l x hH hM hL
    refine ⟨?_, ?_, ?_, rfl⟩
    · simp [categorize_by_severity, List.mem_filter, hH]
    · simp [categorize_by_severity, List.mem_filter, hM]
    · simp [categorize_by_severity, List.mem_filter, hL]

theorem C3_no_normalization_witness :
    prioritizeFixes [issueBadType, issueA] = none ∧
    p2Weird ∉ (categorize_by_severity [p2Weird]).medium_priority :=
  ⟨C3_no_normalization.1 [issueBadType, issueA] issueBadType (by simp) (by decide),
   (C3_no_normalization.2 [p2Weird] p2Weird (by decide) (by decide) (by decide)).2.1⟩

/-! ### Claim C4 -/

theorem dateCheck_type_valid (fs : FileSystem) (p : String) :
    (dateCheck fs p).all (fun x => priority_order.contains x.type) = true := by
  unfold dateCheck
  split
  · split
    · rfl
    · rfl
  · rfl

theorem commissionCheck_type_valid (fs : FileSystem) (p : String) :
    (commissionCheck fs p).all (fun x => priority_order.contains x.type) = true := by
  unfold commissionCheck
  split
  · split
    · rfl
    · rfl
  · rfl

/-- Every issue any analyzer emits carries one of the five types of
`priority_order`, so the sort key of `generate_systematic_fixes` never
raises on a genuine run. -/
theorem all_issues_types_valid (fs : FileSystem) :
    (all_issues fs).all (fun x => priority_order.contains x.type) = true := by
  unfold all_issues
  simp only [List.all_append, Bool.and_eq_true]
  refine ⟨⟨⟨⟨?_, ?_⟩, ?_⟩, ?_⟩, ?_⟩
  · unfold analyze_database_schema_errors
    split
    · split
      · rfl
      · rfl
    · rfl
  · rw [List.all_eq_true]
    intro x hx
    rcases List.mem_flatMap.1 hx with ⟨p, _, hxp⟩
    exact List.all_eq_true.1 (dateCheck_type_valid fs p) x hxp
  · unfold analyze_client_deletion_errors
    split
    · split
      · split
        · rfl
        · rfl
      · rfl
    · rfl
  · unfold analyze_ui_display_inconsistencies
    split
    · dsimp only
      split
      · rfl
      · rfl
    · rfl
  · rw [List.all_eq_true]
    intro x hx
    rcases List.mem_flatMap.1 hx with ⟨p, _, hxp⟩
    exact List.all_eq_true.1 (commissionCheck_type_valid fs p) x hxp

/-- C4: the claim as stated is false.  Over a file source where no path
exists — exactly what the analyzer sees when the root path is missing or
unreadable — the run does not fail: every `os.path.exists` check is false,
a report (with zero findings) is still produced, and the process exits 0. -/
theorem C4_counterexample :
    (mainEntry fsEmpty "2025-06-17 12:00:00").isSome = true ∧
    (mainEntry fsEmpty "2025-06-17 12:00:00").map Prod.snd = some 0 := by
  constructor
  · rfl
  · rfl

/-- C4 (amended): a missing or unreadable root path does not abort the run;
with every existence check failing, scanning proceeds over zero files and
still yields a report with exit code 0.  In fact every run over any file
source completes with a report and exit code 0, regardless of how many
findings it produced. -/
theorem C4_run_always_completes (fs : FileSystem) (generated_at : String) :
    ∃ r, mainEntry fs generated_at = some (r, 0) := by
  refine ⟨renderReport generated_at
    ((List.enumFrom 1 (sortOn issueKey (all_issues fs))).map mkFix), ?_⟩
  unfold mainEntry SystemDebugAnalyzer.create_implementation_report
    SystemDebugAnalyzer.generate_systematic_fixes prioritizeFixes
  dsimp only
  rw [all_issues_types_valid fs]
  rfl

/-! ### Claim C5 -/

/-- C5: the claim as stated is false.  The report embeds the generation
timestamp (`datetime.now()`), so two consecutive runs over the same (here:
empty) file set read different clocks and produce reports that differ in
bytes. -/
theorem C5_counterexample :
    ((⟨fsEmpty, [], []⟩ : SystemDebugAnalyzer).create_implementation_report
        "2025-06-17 10:00:00").2 ≠
      ((⟨fsEmpty, [], []⟩ : SystemDebugAnalyzer).create_implementation_report
        "2025-06-17 10:00:01").2 := by
  decide

/-- C5 (amended): apart from the embedded generation timestamp the report
is a function of the file set alone: two runs with the same file source and
the same timestamp produce byte-identical reports, whatever state the
analyzer object carries, and re-running on the state left by a first run
reproduces the first report. -/
theorem C5_deterministic_for_fixed_input (a b : SystemDebugAnalyzer)
    (generated_at : String) (h : b.repo = a.repo) :
    (b.create_implementation_report generated_at).2 =
      (a.create_implementation_report generated_at).2 ∧
    (((a.create_implementation_report generated_at).1).create_implementation_report
        generated_at).2 =
      (a.create_implementation_report generated_at).2 := by
  constructor
  · unfold SystemDebugAnalyzer.create_implementation_report
      SystemDebugAnalyzer.generate_systematic_fixes
    rw [h]
  · rfl

theorem C5_deterministic_for_fixed_input_witness :
    (anaDirty.create_implementation_report "2025-06-17 10:00:00").2 =
      (anaClean.create_implementation_report "2025-06-17 10:00:00").2 ∧
    (((anaClean.create_implementation_report "2025-06-17 10:00:00").1).create_implementation_report
        "2025-06-17 10:00:00").2 =
      (anaClean.create_implementation_report "2025-06-17 10:00:00").2 :=
  C5_deterministic_for_fixed_input anaClean anaDirty "2025-06-17 10:00:00" rfl

/-! ### Claim C6 -/

/-- C6: the claim as stated is false.  Two files under `client/src`, both
matched by the large-component rule (F = 2 matching files, R = 1 rule),
produce one single aggregated finding instead of F × R = 2: the matches are
merged into one issue listing the components. -/
theorem C6_counterexample :
    (analyze_bundle_size_optimization
        [("a.tsx", some 20000), ("b.tsx", some 20000)] fsEmpty).length = 1 := by
  decide

/-- C6 (amended): the per-file content-predicate scan
(`analyze_commission_system_removal`, R = 1 rule over its fixed file list)
produces exactly F × R findings when every file matches and 0 when none
does, one finding per (file, rule) pair with no merging; the
large-component scan of `analyze_bundle_size_optimization`, however, merges
all matching files into exactly one finding. -/
theorem C6_per_file_findings :
    (∀ fs : FileSystem,
        (∀ p ∈ files_to_check, ∃ c, fs p = some c ∧ pyIn "commission" (pyLower c) = true) →
        (analyze_commission_system_removal fs).length = files_to_check.length) ∧
    (∀ fs : FileSystem,
        (∀ p ∈ files_to_check, ∀ c, fs p = some c → pyIn "commission" (pyLower c) = false) →
        analyze_commission_system_removal fs = []) ∧
    (∀ (walk : List (String × Option Nat)) (fs : FileSystem),
        large_components walk ≠ [] → fs "client/src/App.tsx" = none →
        (analyze_bundle_size_optimization walk fs).length = 1) := by
  refine ⟨?_, ?_, ?_⟩
  · intro fs h
    obtain ⟨c1, hc1, hm1⟩ := h "server/storage.ts" (by simp [files_to_check])
    obtain ⟨c2, hc2, hm2⟩ := h "server/routes.ts" (by simp [files_to_check])
    obtain ⟨c3, hc3, hm3⟩ := h "shared/schema.ts" (by simp [files_to_check])
    obtain ⟨c4, hc4, hm4⟩ := h "client/src/pages/performance-direct.tsx"
      (by simp [files_to_check])
    simp [analyze_commission_system_removal, files_to_check, commissionCheck,
      hc1, hc2, hc3, hc4, hm1, hm2, hm3, hm4]
  · intro fs h
    have hnil : ∀ p ∈ files_to_check, commissionCheck fs p = [] := by
      intro p hp
      unfold commissionCheck
      cases hfs : fs p with
      | none => rfl
      | some c => simp [h p hp c hfs]
    simp [analyze_commission_system_removal, files_to_check,
      hnil "server/storage.ts" (by simp [files_to_check]),
      hnil "server/routes.ts" (by simp [files_to_check]),
      hnil "shared/schema.ts" (by simp [files_to_check]),
      hnil "client/src/pages/performance-direct.tsx" (by simp [files_to_check])]
  · intro walk fs hlarge happ
    unfold analyze_bundle_size_optimization
    rw [if_pos hlarge, happ]
    simp

theorem C6_per_file_findings_witness :
    (analyze_commission_system_removal fsAllCommission).length = files_to_check.length ∧
    analyze_commission_system_removal fsEmpty = [] ∧
    (analyze_bundle_size_optimization [("a.tsx", some 20000)] fsEmpty).length = 1 :=
  ⟨C6_per_file_findings.1 fsAllCommission (fun _ _ => ⟨"commission", rfl, by decide⟩),
   C6_per_file_findings.2.1 fsEmpty (fun _ _ c hc => by cases hc),
   C6_per_file_findings.2.2 [("a.tsx", some 20000)] fsEmpty (by decide) rfl⟩

/-! ### Claim C7 -/

/-- C7: in every produced report the priority indices are exactly the dense
sequence 1..N for N the finding count — `enumerate(sorted_issues, 1)`
assigns consecutive indices starting at 1. -/
theorem C7_priority_indices_dense (issues : List Issue) (fixes : List FixEntry)
    (h : prioritizeFixes issues = some fixes) :
    fixes.map FixEntry.priority = List.range' 1 fixes.length := by
  have hfix : fixes = (List.enumFrom 1 (sortOn issueKey issues)).map mkFix := by
    unfold prioritizeFixes at h
    split at h
    · exact (Option.some.inj h).symm
    · cases h
  subst hfix
  rw [List.map_map]
  have h1 : (FixEntry.priority ∘ mkFix) = Prod.fst := rfl
  rw [h1, List.enumFrom_map_fst]
  simp

theorem C7_priority_indices_dense_witness :
    fixesW2.map FixEntry.priority = List.range' 1 fixesW2.length :=
  C7_priority_indices_dense issuesW2 fixesW2 rfl

/-! ### Claim C8 -/

/-- C8: `generate_fix_steps` is exactly dispatch of the issue's category
into the fixed category-to-steps table, with the single fallback step
"Manual analysis required" for any category not in the table. -/
theorem C8_steps_by_category_table (issue : Issue) :
    generate_fix_steps issue =
      (fix_step_table.lookup issue.category).getD ["Manual analysis required"] := by
  unfold generate_fix_steps fix_step_table
  cases h1 : issue.category == "database_schema" <;>
    cases h2 : issue.category == "date_consistency" <;>
      cases h3 : issue.category == "client_management" <;>
        cases h4 : issue.category == "component_loading" <;>
          cases h5 : issue.category == "commission_system" <;>
            simp [List.lookup, h1, h2, h3, h4, h5]

/-! ### Claim C9 -/

/-- C9: `generate_systematic_fixes` is idempotent and carries no hidden
state: the object state is returned unchanged, the output depends only on
the file source (not on the `self.issues` / `self.fixes` fields set up in
`__init__`), and running the method again on the state left by a first run
yields the same output. -/
theorem C9_idempotent_no_hidden_state (a : SystemDebugAnalyzer) :
    (a.generate_systematic_fixes).1 = a ∧
    (∀ b : SystemDebugAnalyzer, b.repo = a.repo →
      (b.generate_systematic_fixes).2 = (a.generate_systematic_fixes).2) ∧
    (((a.generate_systematic_fixes).1).generate_systematic_fixes).2 =
      (a.generate_systematic_fixes).2 := by
  refine ⟨rfl, ?_, rfl⟩
  intro b h
  unfold SystemDebugAnalyzer.generate_systematic_fixes
  rw [h]

theorem C9_idempotent_no_hidden_state_witness :
    (anaDirty.generate_systematic_fixes).2 = (anaClean.generate_systematic_fixes).2 ∧
    (anaClean.generate_systematic_fixes).1 = anaClean :=
  ⟨(C9_idempotent_no_hidden_state anaClean).2.1 anaDirty rfl,
   (C9_idempotent_no_hidden_state anaClean).1⟩

/-! ### Claim C10 -/

/-- C10: the prioritization sort consults only the issue's type (via its
index in the five-entry `priority_order` table): rewriting any other field
of every issue commutes with the sort (file path and title never influence
the order), and issues of one type come out in exactly the order they were
emitted (the sort is stable). -/
theorem C10_sort_depends_only_on_type (issues : List Issue) (m : Issue → Issue)
    (t : String) (hm : ∀ x, (m x).type = x.type) :
    sortOn issueKey (issues.map m) = (sortOn issueKey issues).map m ∧
    (sortOn issueKey issues).filter (fun x => x.type == t) =
      issues.filter (fun x => x.type == t) := by
  constructor
  · refine sortOn_map issueKey m ?_ issues
    intro x
    unfold issueKey
    rw [hm x]
  · refine filter_sortOn issueKey (fun x => x.type == t) (priority_order.indexOf t)
      ?_ issues
    intro x hx
    have hxt : x.type = t := by simpa using hx
    unfold issueKey
    rw [hxt]

theorem C10_sort_depends_only_on_type_witness :
    sortOn issueKey (issuesW3.map typePreservingRename) =
      (sortOn issueKey issuesW3).map typePreservingRename ∧
    (sortOn issueKey issuesW3).filter (fun x => x.type == "critical") =
      issuesW3.filter (fun x => x.type == "critical") :=
  C10_sort_depends_only_on_type issuesW3 typePreservingRename "critical" (fun _ => rfl)
